import Mathlib

/-!
Shallow embedding of the action-safety pipeline of the Cognitive-OS /
ATHENOS repository (Rust), covering the modules the claims touch:

* `src/types.rs`               — core data model
* `src/sandbox/mod.rs`         — `SandboxRunner`
* `src/auto_action/mod.rs`     — `AutoActionSynthesizer`
* `src/replay/mod.rs`          — `ReplaySimulator.gate_action`
* `src/pattern_miner/mod.rs`   — `PatternMiner`
* `src/rl_policy/mod.rs`       — `RLPolicy`
* `src/models/mod.rs`          — `PatternDetector`, `RecommendationRanker`

Conventions of the embedding:

* Rust `f64` values are modelled as `ℚ` (the programs only scale, add,
  compare and clamp; every constant appearing in the code is a decimal
  literal, exact in `ℚ`).
* Rust `HashMap<String, _>` is modelled as an association list with
  key-replacing insert; `Vec` used as a stack (`push`/`pop` at the end)
  is modelled as a `List` whose head is the top of the stack.
* `chrono::Utc::now()` is modelled by threading an explicit `now : ℤ`
  argument through the state-mutating operations.
* A Rust method mutating `&mut self` and returning `Result<T, String>` is
  modelled as a function `State → ... → Except String T × State`.
-/

namespace Athenos

/-! ## Core types (src/types.rs) -/

/-- `Intent` of src/types.rs. -/
inductive Intent
  | DetectPattern
  | SuggestShortcut
  | AutomateAction
  | MoodIntervention
deriving DecidableEq

/-- `PatternType` of src/types.rs. -/
inductive PatternType
  | WorkflowSequence
  | DebuggingLoop
  | ContextSwitching
  | TimingVariance
  | RepetitiveGesture
  | AttentionFragmentation
deriving DecidableEq

/-- `ActionType` of src/types.rs. -/
inductive ActionType
  | AutomationMacro
  | MicroNudge
  | ScheduleChange
  | SandboxPatch
  | PreemptiveDebugAssistant
  | FocusMode
  | ZenMode
  | SystemHygiene
deriving DecidableEq

/-- `Confidence` of src/types.rs; `derive(PartialOrd, Ord)` orders the
variants in declaration order: `Low < Medium < High`. -/
inductive Confidence
  | Low
  | Medium
  | High
deriving DecidableEq

/-- The declaration-order rank that Rust's derived `Ord` compares by. -/
def Confidence.rank : Confidence → Nat
  | .Low => 0
  | .Medium => 1
  | .High => 2

/-- `RiskCategory` of src/types.rs; `derive(PartialOrd, Ord)` orders the
variants in declaration order: `None < Low < High`. -/
inductive RiskCategory
  | None
  | Low
  | High
deriving DecidableEq

/-- The declaration-order rank that Rust's derived `Ord` compares by. -/
def RiskCategory.rank : RiskCategory → Nat
  | .None => 0
  | .Low => 1
  | .High => 2

/-- `UserProfile` of src/types.rs. -/
inductive UserProfile
  | Developer
  | Accountant
  | Designer
  | Manager
  | Student
  | Other
deriving DecidableEq

/-- `Action` of src/types.rs. -/
structure Action where
  action_type : ActionType
  description : String
  confidence : Confidence
  risk : RiskCategory
deriving DecidableEq

/-- `Observation` of src/types.rs; the two `HashMap<String, f64>` fields
are association lists over `ℚ`. -/
structure Observation where
  id : String
  profile : UserProfile
  observation : List String
  metrics : List (String × ℚ)
  intent : Intent
  action : Action
  expected_outcome : List (String × ℚ)
  source : String
  timestamp : Int
deriving DecidableEq

/-- `Outcome` of src/types.rs. -/
structure Outcome where
  observation_id : String
  accepted : Bool
  ignored : Bool
  modified : Bool
  time_saved_minutes : Option ℚ
  error_rate_change : Option ℚ
  timestamp : Int
deriving DecidableEq

/-! ## Sandbox runner (src/sandbox/mod.rs)

`SandboxRunner` holds only a directory path, which no function below
reads; the three methods are embedded as functions of the action alone. -/

/-- `SandboxResult` of src/sandbox/mod.rs. -/
structure SandboxResult where
  success : Bool
  error_message : Option String
  execution_time_ms : Nat
  diff_log : Option String
deriving DecidableEq

namespace SandboxRunner

/-- `SandboxRunner::test_automation` (src/sandbox/mod.rs lines 35-64). -/
def test_automation (action : Action) : SandboxResult :=
  match action.action_type with
  | ActionType.AutomationMacro =>
      { success := decide (action.risk.rank ≤ RiskCategory.Low.rank)
        error_message :=
          if RiskCategory.Low.rank < action.risk.rank then
            some "High risk action requires manual approval"
          else
            none
        execution_time_ms := 100
        diff_log := some ("Would execute: " ++ action.description) }
  | _ =>
      { success := true
        error_message := none
        execution_time_ms := 50
        diff_log := some ("Tested: " ++ action.description) }

/-- `SandboxRunner::generate_undo` (src/sandbox/mod.rs lines 68-71). -/
def generate_undo (action : Action) : String :=
  "Undo action: " ++ action.description

/-- `SandboxRunner::is_safe_to_auto_execute` (src/sandbox/mod.rs lines
75-77): `action.confidence >= Confidence::High && action.risk ==
RiskCategory::None`. -/
def is_safe_to_auto_execute (action : Action) : Bool :=
  decide (Confidence.High.rank ≤ action.confidence.rank) &&
    decide (action.risk = RiskCategory.None)

end SandboxRunner

/-! ## Auto-action synthesizer (src/auto_action/mod.rs)

`executed_actions : HashMap<String, ExecutedAction>` is an association
list with key-replacing insert (each key occurs at most once once built
by `mapInsert` from the empty map); `rollback_stack : Vec<String>` is a
`List String` whose head is the `Vec`'s end, i.e. the top of the stack:
`Vec::push` is cons, `Vec::pop` takes the head. -/

/-- `ActionState` of src/auto_action/mod.rs. -/
inductive ActionState
  | Pending
  | Executing
  | Completed
  | RolledBack
  | Failed
deriving DecidableEq

/-- `ExecutedAction` of src/auto_action/mod.rs. -/
structure ExecutedAction where
  id : String
  action : Action
  state : ActionState
  execution_result : Option SandboxResult
  rollback_diff : Option String
  executed_at : Option Int
  rolled_back_at : Option Int
deriving DecidableEq

/-- The mutable state of `AutoActionSynthesizer` (its `sandbox_runner`
field holds only a directory path and carries no state the logic reads). -/
structure AutoActionSynthesizer where
  executed_actions : List (String × ExecutedAction)
  rollback_stack : List String
deriving DecidableEq

/-- `HashMap::insert` on an association list: the new binding replaces
any binding of the key. -/
def mapInsert {β : Type} (k : String) (v : β)
    (m : List (String × β)) : List (String × β) :=
  (k, v) :: m.filter (fun p => decide (p.1 ≠ k))

/-- `HashMap::get_mut` followed by a mutation `f` of the entry at `k`
(the identity elsewhere). -/
def mapUpdate {β : Type} (k : String) (f : β → β)
    (m : List (String × β)) : List (String × β) :=
  m.map (fun p => if p.1 = k then (p.1, f p.2) else p)

namespace AutoActionSynthesizer

/-- `AutoActionSynthesizer::new`. -/
def new : AutoActionSynthesizer :=
  { executed_actions := [], rollback_stack := [] }

/-- `format!("action_{}", observation.id)`: the key and id of the record
`synthesize_and_execute` stores for `observation`. -/
def actionId (observation : Observation) : String :=
  "action_" ++ observation.id

/-- `AutoActionSynthesizer::synthesize_and_execute`
(src/auto_action/mod.rs lines 55-87).  `now` stands for
`chrono::Utc::now().timestamp()`.  The Rust sandbox error embeds the
sandbox's `error_message` via `format!`; the embedding keeps the fixed
prefix of that message. -/
def synthesize_and_execute (s : AutoActionSynthesizer) (observation : Observation)
    (now : Int) : Except String ExecutedAction × AutoActionSynthesizer :=
  if ¬ SandboxRunner.is_safe_to_auto_execute observation.action then
    (Except.error "Action not safe for auto-execution", s)
  else
    let sandbox_result := SandboxRunner.test_automation observation.action
    if ¬ sandbox_result.success then
      (Except.error "Sandbox test failed", s)
    else
      let rollback_diff := SandboxRunner.generate_undo observation.action
      let executed_action : ExecutedAction :=
        { id := actionId observation
          action := observation.action
          state := ActionState.Completed
          execution_result := some sandbox_result
          rollback_diff := some rollback_diff
          executed_at := some now
          rolled_back_at := none }
      (Except.ok executed_action,
        { executed_actions := mapInsert executed_action.id executed_action s.executed_actions
          rollback_stack := executed_action.id :: s.rollback_stack })

/-- `AutoActionSynthesizer::rollback_last` (src/auto_action/mod.rs lines
91-109).  `rollback_stack.pop()` removes the top id before the record is
looked up, so the stack shrinks on every non-empty path, error or not. -/
def rollback_last (s : AutoActionSynthesizer) (now : Int) :
    Except String Unit × AutoActionSynthesizer :=
  match s.rollback_stack with
  | [] => (Except.error "No actions to rollback", s)
  | action_id :: rest =>
      match s.executed_actions.lookup action_id with
      | some a =>
          if a.state = ActionState.Completed then
            let rolled := fun x : ExecutedAction =>
              { x with state := ActionState.RolledBack, rolled_back_at := some now }
            (Except.ok (),
              { executed_actions := mapUpdate action_id rolled s.executed_actions
                rollback_stack := rest })
          else
            (Except.error "Action not in completed state",
              { s with rollback_stack := rest })
      | none =>
          (Except.error "Action not found", { s with rollback_stack := rest })

/-- `AutoActionSynthesizer::rollback_action` (src/auto_action/mod.rs
lines 112-126): the same check and transition as `rollback_last`, by id,
leaving `rollback_stack` untouched. -/
def rollback_action (s : AutoActionSynthesizer) (action_id : String)
    (now : Int) : Except String Unit × AutoActionSynthesizer :=
  match s.executed_actions.lookup action_id with
  | some a =>
      if a.state = ActionState.Completed then
        let rolled := fun x : ExecutedAction =>
          { x with state := ActionState.RolledBack, rolled_back_at := some now }
        (Except.ok (),
          { s with executed_actions := mapUpdate action_id rolled s.executed_actions })
      else
        (Except.error "Action not in completed state", s)
  | none =>
      (Except.error "Action not found", s)

end AutoActionSynthesizer

/-! ## Replay simulator (src/replay/mod.rs) -/

/-- `ReplayResult` of src/replay/mod.rs. -/
structure ReplayResult where
  observation_id : String
  action_safe : Bool
  quality_score : ℚ
  errors : List String
  warnings : List String
deriving DecidableEq

/-- `ReplaySimulator::gate_action` (src/replay/mod.rs lines 99-101):
`result.action_safe && result.quality_score > 0.6 && result.errors.is_empty()`. -/
def gate_action (result : ReplayResult) : Bool :=
  result.action_safe && decide ((0.6 : ℚ) < result.quality_score) &&
    result.errors.isEmpty

/-! ## Pattern miner (src/pattern_miner/mod.rs) -/

/-- `OSEventType` of src/edge/mod.rs. -/
inductive OSEventType
  | AppLaunch
  | AppSwitch
  | AppClose
  | WindowFocus
  | WindowUnfocus
  | KeyPress
  | MouseClick
  | SystemSleep
  | SystemWake
deriving DecidableEq

/-- `OSEvent` of src/edge/mod.rs. -/
structure OSEvent where
  event_type : OSEventType
  app_name : String
  window_title : Option String
  timestamp : Int
  metadata : List (String × String)
deriving DecidableEq

/-- `CausalRelationship` of src/pattern_miner/mod.rs. -/
structure CausalRelationship where
  cause : String
  effect : String
  strength : ℚ
  confidence : ℚ
deriving DecidableEq

/-- The mutable state of `PatternMiner` (src/pattern_miner/mod.rs). -/
structure PatternMiner where
  event_sequences : List (List String)
  causal_graph : List (String × List CausalRelationship)
deriving DecidableEq

namespace PatternMiner

/-- `PatternMiner::new`. -/
def new : PatternMiner :=
  { event_sequences := [], causal_graph := [] }

/-- The adjacent pairs `(seq[i], seq[i+1])` for `i` in
`0..seq.len().saturating_sub(1)`, the ranges both loops of
src/pattern_miner/mod.rs iterate (the inner bound check `i + 1 <
seq.len()` always holds on that range). -/
def adjacentPairs (seq : List String) : List (String × String) :=
  seq.zip seq.tail

/-- The `cause_count` accumulated by
`PatternMiner::compute_causal_strength`: positions `i <
seq.len() - 1` with `seq[i] == cause`, over all historical sequences. -/
def causeOccurrences (sequences : List (List String)) (cause : String) : Nat :=
  (sequences.map (fun seq =>
    (adjacentPairs seq).countP (fun p => decide (p.1 = cause)))).sum

/-- The `co_occurrences` accumulated by
`PatternMiner::compute_causal_strength`: positions with `seq[i] == cause
&& seq[i+1] == effect`, over all historical sequences. -/
def coOccurrences (sequences : List (List String)) (cause effect : String) : Nat :=
  (sequences.map (fun seq =>
    (adjacentPairs seq).countP (fun p => decide (p.1 = cause ∧ p.2 = effect)))).sum

/-- `PatternMiner::compute_causal_strength` (src/pattern_miner/mod.rs
lines 86-107). -/
def compute_causal_strength (m : PatternMiner) (cause effect : String) : ℚ :=
  let cause_count := causeOccurrences m.event_sequences cause
  let co_occurrences := coOccurrences m.event_sequences cause effect
  if 0 < cause_count then
    (co_occurrences : ℚ) / (cause_count : ℚ)
  else
    0

/-- `PatternMiner::detect_pattern_types` (src/pattern_miner/mod.rs lines
110-128).  The mean sequence length over an empty history is `0/0`: `0`
in `ℚ` where the Rust `f64` yields `NaN`; both fail the `> 5.0` test, so
the embedded branch agrees with the code. -/
def detect_pattern_types (m : PatternMiner) : List PatternType :=
  let patterns :=
    if 5 < m.event_sequences.length then [PatternType.WorkflowSequence] else []
  let avg_sequence_len : ℚ :=
    ((m.event_sequences.map (fun s => (s.length : ℚ))).sum) /
      (m.event_sequences.length : ℚ)
  if (5 : ℚ) < avg_sequence_len then patterns ++ [PatternType.ContextSwitching]
  else patterns

/-- The filter-and-project step of `PatternMiner::mine_patterns`:
focus/launch/switch events to their app tokens. -/
def projectSequence (events : List OSEvent) : List String :=
  events.filterMap (fun e =>
    match e.event_type with
    | OSEventType.AppLaunch | OSEventType.AppSwitch | OSEventType.WindowFocus =>
        some e.app_name
    | _ => none)

/-- The causal-graph mutation of one loop iteration of
`PatternMiner::mine_patterns`: `entry(cause).or_insert_with(Vec::new)
.push(relationship)`. -/
def graphAdd (g : List (String × List CausalRelationship)) (cause : String)
    (rel : CausalRelationship) : List (String × List CausalRelationship) :=
  match g.lookup cause with
  | some _ => mapUpdate cause (fun rels => rels ++ [rel]) g
  | none => g ++ [(cause, [rel])]

/-- `PatternMiner::mine_patterns` (src/pattern_miner/mod.rs lines
39-82).  The relationship loop runs after the new sequence is pushed to
`event_sequences`, which stays fixed while only `causal_graph` grows, so
it is a fold over the adjacent pairs. -/
def mine_patterns (m : PatternMiner) (events : List OSEvent) :
    List PatternType × PatternMiner :=
  let sequence := projectSequence events
  if 3 ≤ sequence.length then
    let pushed : PatternMiner :=
      { m with event_sequences := m.event_sequences ++ [sequence] }
    let graph :=
      (adjacentPairs sequence).foldl (fun g p =>
        let strength := compute_causal_strength pushed p.1 p.2
        if (0.3 : ℚ) < strength then
          graphAdd g p.1
            { cause := p.1, effect := p.2, strength := strength,
              confidence := 0.7 }
        else g) pushed.causal_graph
    let mined : PatternMiner := { pushed with causal_graph := graph }
    (detect_pattern_types mined, mined)
  else
    (detect_pattern_types m, m)

end PatternMiner

/-! ## Reinforcement-learning policy (src/rl_policy/mod.rs)

`select_action` draws from `rand::thread_rng()` and is not embedded; the
claims only touch `update_from_outcome` and `compute_reward`. -/

/-- `PolicyAction` of src/rl_policy/mod.rs. -/
structure PolicyAction where
  action : Action
  q_value : ℚ
  visit_count : Nat
deriving DecidableEq

/-- The state of `RLPolicy` (src/rl_policy/mod.rs). -/
structure RLPolicy where
  q_table : List (String × PolicyAction)
  learning_rate : ℚ
  discount_factor : ℚ
  epsilon : ℚ
deriving DecidableEq

/-- The variant name Rust's derived `Debug` prints for an `Intent`. -/
def Intent.debugName : Intent → String
  | .DetectPattern => "DetectPattern"
  | .SuggestShortcut => "SuggestShortcut"
  | .AutomateAction => "AutomateAction"
  | .MoodIntervention => "MoodIntervention"

/-- The variant name Rust's derived `Debug` prints for a `UserProfile`. -/
def UserProfile.debugName : UserProfile → String
  | .Developer => "Developer"
  | .Accountant => "Accountant"
  | .Designer => "Designer"
  | .Manager => "Manager"
  | .Student => "Student"
  | .Other => "Other"

namespace RLPolicy

/-- `RLPolicy::new`. -/
def new : RLPolicy :=
  { q_table := [], learning_rate := 0.1, discount_factor := 0.9, epsilon := 0.1 }

/-- `RLPolicy::get_state_key`: `format!("{:?}_{:?}", observation.intent,
observation.profile)`. -/
def get_state_key (observation : Observation) : String :=
  observation.intent.debugName ++ "_" ++ observation.profile.debugName

/-- `RLPolicy::compute_reward` (src/rl_policy/mod.rs lines 90-110). -/
def compute_reward (outcome : Outcome) : ℚ :=
  let reward : ℚ :=
    if outcome.accepted then 10 else if outcome.ignored then -2 else 0
  let reward :=
    match outcome.time_saved_minutes with
    | some time_saved => reward + time_saved * 0.5
    | none => reward
  match outcome.error_rate_change with
  | some error_change => if error_change < 0 then reward + 5 else reward
  | none => reward

/-- `RLPolicy::update_from_outcome` (src/rl_policy/mod.rs lines 41-65). -/
def update_from_outcome (p : RLPolicy) (observation : Observation)
    (outcome : Outcome) : RLPolicy :=
  let state_key := get_state_key observation
  let reward := compute_reward outcome
  let current_q := ((p.q_table.lookup state_key).map PolicyAction.q_value).getD 0
  let new_q := current_q + p.learning_rate * (reward - current_q)
  let policy_action : PolicyAction :=
    { action := observation.action
      q_value := new_q
      visit_count :=
        ((p.q_table.lookup state_key).map (fun pa => pa.visit_count + 1)).getD 1 }
  { p with q_table := mapInsert state_key policy_action p.q_table }

end RLPolicy

/-! ## Supervised models (src/models/mod.rs) -/

namespace PatternDetector

/-- The feature weights `PatternDetector::new` installs.  The Rust
`HashMap` iteration order is arbitrary; the sum `score_confidence`
computes over it is order-independent in `ℚ`. -/
def initialWeights : List (String × ℚ) :=
  [("repeat_count", 0.3), ("time_to_first_code_min", 0.2),
   ("context_switch_count", 0.25), ("focus_fragmentation_pct", 0.25)]

/-- `PatternDetector::score_confidence` (src/models/mod.rs lines 61-69)
over an arbitrary weight vector: sum `value * weight` over the weights
whose key the observation's metrics hold, then `(score / 100.0)
.min(1.0).max(0.0)`. -/
def score_confidence (weights : List (String × ℚ)) (observation : Observation) : ℚ :=
  let score := weights.foldl (fun acc kw =>
    match observation.metrics.lookup kw.1 with
    | some value => acc + value * kw.2
    | none => acc) 0
  max (min (score / 100) 1) 0

end PatternDetector

namespace RecommendationRanker

/-- The per-observation score of `RecommendationRanker::rank_actions`
(the body of its `map` closure, src/models/mod.rs lines 99-115). -/
def compositeScore (weights : List (String × ℚ)) (obs : Observation) : ℚ :=
  let pattern_score := PatternDetector.score_confidence weights obs
  let time_saved := ((obs.expected_outcome.lookup "time_saved_min").getD 0)
  let confidence_multiplier : ℚ :=
    match obs.action.confidence with
    | Confidence.High => 1
    | Confidence.Medium => 0.7
    | Confidence.Low => 0.4
  let risk_penalty : ℚ :=
    match obs.action.risk with
    | RiskCategory.None => 1
    | RiskCategory.Low => 0.8
    | RiskCategory.High => 0.3
  (pattern_score * 0.4 + time_saved / 100 * 0.6) *
    confidence_multiplier * risk_penalty

/-- `RecommendationRanker::rank_actions` (src/models/mod.rs lines
95-120): score every observation, then `sort_by(|a, b|
b.1.partial_cmp(&a.1).unwrap())` — Rust's stable sort, descending by
score; `List.mergeSort` with `le a b = (b.2 ≤ a.2)` is that stable
descending sort. -/
def rank_actions (weights : List (String × ℚ)) (observations : List Observation) :
    List (Observation × ℚ) :=
  (observations.map (fun obs => (obs, compositeScore weights obs))).mergeSort
    (fun a b => decide (b.2 ≤ a.2))

end RecommendationRanker

/-- The spec's confidence multiplier table (§4.2: High=1.0, Medium=0.7,
Low=0.4), for comparison with the `match` inside `rank_actions`. -/
def confidenceMultiplier : Confidence → ℚ
  | Confidence.High => 1
  | Confidence.Medium => 0.7
  | Confidence.Low => 0.4

/-- The spec's risk multiplier table (§4.2: None=1.0, Low=0.8,
High=0.3), for comparison with the `match` inside `rank_actions`. -/
def riskMultiplier : RiskCategory → ℚ
  | RiskCategory.None => 1
  | RiskCategory.Low => 0.8
  | RiskCategory.High => 0.3

/-- `metric[k]` with a missing key defaulting to 0, as the spec's score
formula reads the metrics map. -/
def metricOf (o : Observation) (k : String) : ℚ :=
  (o.metrics.lookup k).getD 0

/-! ## Stated invariants and concrete sample inputs

`StackInv` and `noFailedRecorded` state the spec's §3 invariants over
the embedded synthesizer state; the sample inputs mirror the
repository's own test vectors (src/auto_action/mod.rs tests, spec §8). -/

/-- Spec §3: "Rollback stack contains only ids of `ExecutedAction`s
currently in state `Completed`". -/
def StackInv (s : AutoActionSynthesizer) : Prop :=
  ∀ id ∈ s.rollback_stack,
    (s.executed_actions.lookup id).map ExecutedAction.state =
      some ActionState.Completed

instance (s : AutoActionSynthesizer) : Decidable (StackInv s) := by
  unfold StackInv; infer_instance

/-- Spec §3: "no partial/failed executions are recorded": every stored
record embeds a successful `SandboxResult`. -/
def noFailedRecorded (s : AutoActionSynthesizer) : Prop :=
  ∀ p ∈ s.executed_actions, ∀ r : SandboxResult,
    p.2.execution_result = some r → r.success = true

/-- The safe automation of the repository's tests:
`{AutomationMacro, "Safe macro", High, None}`. -/
def sampleAction : Action :=
  { action_type := ActionType.AutomationMacro
    description := "Safe macro"
    confidence := Confidence.High
    risk := RiskCategory.None }

/-- The `test_001`-style observation of the repository's tests. -/
def sampleObservation : Observation :=
  { id := "test_001"
    profile := UserProfile.Developer
    observation := ["Teams", "Gmail", "IDE"]
    metrics := [("repeat_count", 8)]
    intent := Intent.AutomateAction
    action := sampleAction
    expected_outcome := [("time_saved_min", 11)]
    source := "test"
    timestamp := 1234567890 }

/-- The rejected observation of the end-to-end scenario: confidence
`Low`, risk `High`. -/
def riskyObservation : Observation :=
  { sampleObservation with
      id := "test_003"
      action := { sampleAction with
        description := "Risky"
        confidence := Confidence.Low
        risk := RiskCategory.High } }

/-- A fully accepted outcome with no time saved and no error-rate data. -/
def acceptedOutcome : Outcome :=
  { observation_id := "test_001"
    accepted := true
    ignored := false
    modified := false
    time_saved_minutes := none
    error_rate_change := none
    timestamp := 1234567890 }

/-- An outcome with both the `accepted` and the `ignored` flag set: the
`Outcome` struct does not forbid the combination. -/
def acceptedIgnoredOutcome : Outcome :=
  { acceptedOutcome with ignored := true }

/-- The synthesizer after executing `sampleObservation` and then rolling
the recorded action back by id through `rollback_action`: the id
`action_test_001` is still on the rollback stack while its record is in
state `RolledBack`. -/
def staleSynthesizer : AutoActionSynthesizer :=
  (AutoActionSynthesizer.rollback_action
    (AutoActionSynthesizer.synthesize_and_execute
      AutoActionSynthesizer.new sampleObservation 0).2
    "action_test_001" 1).2

/-- The record `staleSynthesizer` stores under `action_test_001`:
already rolled back while its id is still on the rollback stack. -/
def staleRecord : ExecutedAction :=
  { id := "action_test_001"
    action := sampleAction
    state := ActionState.RolledBack
    execution_result := some
      { success := true
        error_message := none
        execution_time_ms := 100
        diff_log := some "Would execute: Safe macro" }
    rollback_diff := some "Undo action: Safe macro"
    executed_at := some 0
    rolled_back_at := some 1 }

/-- A miner whose history already holds six three-token sequences. -/
def sixSequenceMiner : PatternMiner :=
  { event_sequences := List.replicate 6 ["a", "b", "c"], causal_graph := [] }

/-- A single app-launch event: its projected sequence has one element,
fewer than the mining threshold of 3. -/
def singleLaunchEvent : List OSEvent :=
  [{ event_type := OSEventType.AppLaunch
     app_name := "Teams"
     window_title := none
     timestamp := 1
     metadata := [] }]

/-! ## Association-list lemmas -/

theorem lookup_cons_ite {β : Type} (k k2 : String) (v : β) (m : List (String × β)) :
    ((k, v) :: m).lookup k2 = if k2 = k then some v else m.lookup k2 := by
  rw [List.lookup_cons]
  by_cases h : k2 = k
  · simp [h]
  · simp [beq_eq_false_iff_ne.mpr h, h]

theorem lookup_filter_ne {β : Type} (k k2 : String) (m : List (String × β)) :
    (m.filter (fun p => decide (p.1 ≠ k))).lookup k2 =
      if k2 = k then none else m.lookup k2 := by
  induction m with
  | nil => simp
  | cons p t ih =>
      obtain ⟨kp, vp⟩ := p
      rw [List.filter_cons]
      by_cases hp : kp = k
      · have hd : (decide ((kp, vp).1 ≠ k)) = false := by simp [hp]
        rw [hd]
        simp only [Bool.false_eq_true, if_false]
        rw [ih, lookup_cons_ite]
        by_cases h2 : k2 = k <;> simp [h2, hp]
      · have hd : (decide ((kp, vp).1 ≠ k)) = true := by simp [hp]
        rw [hd]
        simp only [if_true]
        rw [lookup_cons_ite, ih, lookup_cons_ite]
        by_cases h2 : k2 = kp
        · subst h2
          simp [hp]
        · simp [h2]

theorem lookup_mapInsert {β : Type} (k k2 : String) (v : β) (m : List (String × β)) :
    (mapInsert k v m).lookup k2 = if k2 = k then some v else m.lookup k2 := by
  unfold mapInsert
  rw [lookup_cons_ite, lookup_filter_ne]
  by_cases h : k2 = k <;> simp [h]

theorem lookup_mapUpdate {β : Type} (k k2 : String) (f : β → β)
    (m : List (String × β)) :
    (mapUpdate k f m).lookup k2 =
      if k2 = k then (m.lookup k).map f else m.lookup k2 := by
  induction m with
  | nil => simp [mapUpdate]
  | cons p t ih =>
      obtain ⟨kp, vp⟩ := p
      unfold mapUpdate at ih ⊢
      rw [List.map_cons]
      by_cases hp : kp = k
      · subst hp
        simp only [if_pos rfl]
        rw [lookup_cons_ite, lookup_cons_ite, ih]
        by_cases h2 : k2 = kp <;> simp [h2, lookup_cons_ite]
      · simp only [if_neg hp]
        rw [lookup_cons_ite, lookup_cons_ite, ih]
        by_cases h2 : k2 = kp
        · subst h2
          simp [hp]
        · simp [h2, lookup_cons_ite, Ne.symm hp]

theorem mem_mapInsert {β : Type} (k : String) (v : β) (m : List (String × β))
    (p : String × β) (hp : p ∈ mapInsert k v m) : p = (k, v) ∨ p ∈ m := by
  unfold mapInsert at hp
  rcases List.mem_cons.mp hp with h | h
  · exact Or.inl h
  · exact Or.inr (List.mem_of_mem_filter h)

theorem score_fold_eq (o : Observation) (w : List (String × ℚ)) (a : ℚ) :
    w.foldl (fun acc kw =>
      match o.metrics.lookup kw.1 with
      | some value => acc + value * kw.2
      | none => acc) a
    = a + (w.map (fun kw => metricOf o kw.1 * kw.2)).sum := by
  induction w generalizing a with
  | nil => simp
  | cons kw t ih =>
      rw [List.foldl_cons, ih, List.map_cons, List.sum_cons]
      cases h : o.metrics.lookup kw.1 <;> simp [metricOf, h] <;> ring

/-! ## The claims -/

/-- C2: `is_safe_to_auto_execute(action)` is true exactly when the
action's confidence is `High` and its risk is `None`; by case analysis
on the two enums this settles all 9 `(confidence, risk)` combinations. -/
theorem is_safe_to_auto_execute_iff (action : Action) :
    SandboxRunner.is_safe_to_auto_execute action = true ↔
      action.confidence = Confidence.High ∧ action.risk = RiskCategory.None := by
  cases h : action.confidence <;>
    simp [SandboxRunner.is_safe_to_auto_execute, h, Confidence.rank]

/-- C5: `gate_action(result)` is true exactly when the result is safe,
its quality score is strictly above 0.6 and its error list is empty; in
particular a quality score of exactly 0.6 never passes the gate. -/
theorem gate_action_spec (result : ReplayResult) :
    (gate_action result = true ↔
      result.action_safe = true ∧ (0.6 : ℚ) < result.quality_score ∧
        result.errors = [])
    ∧ (result.quality_score = 0.6 → gate_action result = false) := by
  constructor
  · unfold gate_action
    simp [List.isEmpty_iff, and_assoc]
  · intro h
    unfold gate_action
    simp [h]

/-- C6: when token `A` is immediately followed by `B` at `k` adjacent
positions of the history, by `C` at exactly one, and stands in cause
position `k + 1` times in all (nowhere else), the computed causal
strengths are `k/(k+1)` for `A→B` and `1/(k+1)` for `A→C`; over an empty
history every strength is 0. -/
theorem compute_causal_strength_freq (hist : List (List String))
    (g : List (String × List CausalRelationship)) (A B C : String) (k : Nat)
    (hAB : PatternMiner.coOccurrences hist A B = k)
    (hAC : PatternMiner.coOccurrences hist A C = 1)
    (hA : PatternMiner.causeOccurrences hist A = k + 1) :
    PatternMiner.compute_causal_strength ⟨hist, g⟩ A B = (k : ℚ) / ((k : ℚ) + 1)
    ∧ PatternMiner.compute_causal_strength ⟨hist, g⟩ A C = 1 / ((k : ℚ) + 1)
    ∧ ∀ cause effect,
        PatternMiner.compute_causal_strength ⟨[], g⟩ cause effect = 0 := by
  refine ⟨?_, ?_, ?_⟩
  · unfold PatternMiner.compute_causal_strength
    simp [hAB, hA]
  · unfold PatternMiner.compute_causal_strength
    simp [hAC, hA]
  · intro cause effect
    unfold PatternMiner.compute_causal_strength
    simp [PatternMiner.causeOccurrences, PatternMiner.coOccurrences]

/-- Witness for C6: the history `[[A,B], [A,B], [A,C]]` has `k = 2`, and
the strengths evaluate to `2/3` and `1/3`. -/
theorem compute_causal_strength_freq_witness :
    PatternMiner.coOccurrences [["A", "B"], ["A", "B"], ["A", "C"]] "A" "B" = 2
    ∧ PatternMiner.coOccurrences [["A", "B"], ["A", "B"], ["A", "C"]] "A" "C" = 1
    ∧ PatternMiner.causeOccurrences [["A", "B"], ["A", "B"], ["A", "C"]] "A" = 3
    ∧ PatternMiner.compute_causal_strength
        ⟨[["A", "B"], ["A", "B"], ["A", "C"]], []⟩ "A" "B" =
          ((2 : ℕ) : ℚ) / (((2 : ℕ) : ℚ) + 1)
    ∧ PatternMiner.compute_causal_strength
        ⟨[["A", "B"], ["A", "B"], ["A", "C"]], []⟩ "A" "C" =
          1 / (((2 : ℕ) : ℚ) + 1) := by
  have h := compute_causal_strength_freq [["A", "B"], ["A", "B"], ["A", "C"]]
    [] "A" "B" "C" 2 (by decide) (by decide) (by decide)
  exact ⟨by decide, by decide, by decide, h.1, h.2.1⟩

/-- Counterexample to C7 as stated: on an outcome with both `accepted`
and `ignored` set, the claimed reward `10·accepted − 2·ignored + ...`
is 8, predicting the value `0 + 0.1·(8 − 0) = 0.8` for the first update,
but the code's `else if` skips the ignored penalty and stores `1`. -/
theorem update_from_outcome_claim_cex :
    ((RLPolicy.update_from_outcome RLPolicy.new sampleObservation
        acceptedIgnoredOutcome).q_table.lookup
          (RLPolicy.get_state_key sampleObservation)).map PolicyAction.q_value
      = some 1
    ∧ (0 : ℚ) + RLPolicy.new.learning_rate *
        ((10 * 1 - 2 * 1 + 0.5 * 0 + 5 * 0) - 0) = 0.8
    ∧ (1 : ℚ) ≠ 0.8 := by
  refine ⟨?_, by norm_num [RLPolicy.new], by norm_num⟩
  simp [RLPolicy.update_from_outcome, lookup_mapInsert, RLPolicy.new,
    RLPolicy.compute_reward, acceptedIgnoredOutcome, acceptedOutcome]
  norm_num

/-- C7 (amended): the update stores, at the observation's state key,
`old + learning_rate · (reward − old)` with `old = 0` for an unseen key,
where `reward = (10 if accepted, else −2 if ignored, else 0) +
0.5·time_saved_minutes + 5·[error_rate_change < 0]` (the ignored penalty
applies only when the outcome is not accepted); with learning rate 0.1
and an accepted outcome with no time saved, the first update stores 1.0
and a second identical update stores 1.9. -/
theorem update_from_outcome_spec (p : RLPolicy) (observation : Observation)
    (outcome : Outcome) :
    (RLPolicy.compute_reward outcome =
      (if outcome.accepted then 10 else if outcome.ignored then (-2 : ℚ) else 0)
        + 0.5 * (outcome.time_saved_minutes.getD 0)
        + (if (outcome.error_rate_change.getD 0) < 0 then 5 else 0))
    ∧ (((RLPolicy.update_from_outcome p observation outcome).q_table.lookup
          (RLPolicy.get_state_key observation)).map PolicyAction.q_value =
        some (((p.q_table.lookup (RLPolicy.get_state_key observation)).map
            PolicyAction.q_value).getD 0
          + p.learning_rate * (RLPolicy.compute_reward outcome -
              ((p.q_table.lookup (RLPolicy.get_state_key observation)).map
                PolicyAction.q_value).getD 0)))
    ∧ (((RLPolicy.update_from_outcome RLPolicy.new sampleObservation
          acceptedOutcome).q_table.lookup
            (RLPolicy.get_state_key sampleObservation)).map PolicyAction.q_value
        = some 1)
    ∧ (((RLPolicy.update_from_outcome
          (RLPolicy.update_from_outcome RLPolicy.new sampleObservation
            acceptedOutcome) sampleObservation acceptedOutcome).q_table.lookup
            (RLPolicy.get_state_key sampleObservation)).map PolicyAction.q_value
        = some 1.9) := by
  refine ⟨?_, ?_, ?_, ?_⟩
  · unfold RLPolicy.compute_reward
    cases ht : outcome.time_saved_minutes <;> cases he : outcome.error_rate_change
    · simp
    · rename_i v
      by_cases hv : v < 0 <;> simp [hv]
    · simp
      ring
    · rename_i t v
      by_cases hv : v < 0 <;> simp [hv] <;> ring_nf
  · unfold RLPolicy.update_from_outcome
    simp [lookup_mapInsert]
  · simp [RLPolicy.update_from_outcome, lookup_mapInsert, RLPolicy.new,
      RLPolicy.compute_reward, acceptedOutcome]
    norm_num
  · simp [RLPolicy.update_from_outcome, lookup_mapInsert, RLPolicy.new,
      RLPolicy.compute_reward, acceptedOutcome]
    norm_num

/-- C1: when the action is unsafe for auto-execution or its sandbox test
fails, `synthesize_and_execute` returns an error and leaves the state
untouched; and it preserves the invariant that every recorded
`ExecutedAction` embeds a successful `SandboxResult`, so no record of a
failed sandbox test ever exists. -/
theorem synthesize_and_execute_safety (s : AutoActionSynthesizer)
    (observation : Observation) (now : Int) :
    ((SandboxRunner.is_safe_to_auto_execute observation.action = false ∨
        (SandboxRunner.test_automation observation.action).success = false) →
      (∃ e, (AutoActionSynthesizer.synthesize_and_execute s observation now).1 =
          Except.error e)
        ∧ (AutoActionSynthesizer.synthesize_and_execute s observation now).2 = s)
    ∧ (noFailedRecorded s →
        noFailedRecorded
          (AutoActionSynthesizer.synthesize_and_execute s observation now).2) := by
  constructor
  · intro h
    rcases h with h | h
    · simp [AutoActionSynthesizer.synthesize_and_execute, h]
    · by_cases hs : SandboxRunner.is_safe_to_auto_execute observation.action = true
      · simp [AutoActionSynthesizer.synthesize_and_execute, hs, h]
      · simp [AutoActionSynthesizer.synthesize_and_execute, hs]
  · intro hn
    by_cases hs : SandboxRunner.is_safe_to_auto_execute observation.action = true
    · by_cases hx : (SandboxRunner.test_automation observation.action).success = true
      · simp only [AutoActionSynthesizer.synthesize_and_execute, hs, hx]
        simp only [not_true_eq_false, if_false]
        unfold noFailedRecorded
        intro p hp r hr
        rcases mem_mapInsert _ _ _ p hp with h1 | h1
        · rw [h1] at hr
          simp only at hr
          cases hr
          exact hx
        · exact hn p h1 r hr
      · simp [AutoActionSynthesizer.synthesize_and_execute, hs, hx]
        exact hn
    · simp [AutoActionSynthesizer.synthesize_and_execute, hs]
      exact hn

/-- Counterexample to C3 as stated: after one successful execution the
invariant holds, but `rollback_action` then transitions the record to
`RolledBack` while leaving its id on the rollback stack, so the stack no
longer contains only ids of `Completed` actions. -/
theorem rollback_action_breaks_stack_inv :
    StackInv (AutoActionSynthesizer.synthesize_and_execute
        AutoActionSynthesizer.new sampleObservation 0).2
    ∧ ¬ StackInv staleSynthesizer
    ∧ staleSynthesizer.rollback_stack = ["action_test_001"]
    ∧ (staleSynthesizer.executed_actions.lookup "action_test_001").map
        ExecutedAction.state = some ActionState.RolledBack := by
  decide

/-- C3 (amended): provided the stack holds no duplicate ids and the new
action id is fresh, `synthesize_and_execute` and `rollback_last`
preserve the invariant that the rollback stack holds only ids of
`Completed` records, pushing to and popping from the top (LIFO);
`rollback_action` never touches the stack, which is why it can break the
invariant (see the counterexample). -/
theorem stack_inv_preservation (s : AutoActionSynthesizer)
    (observation : Observation) (now now2 : Int)
    (hnd : s.rollback_stack.Nodup) (hinv : StackInv s)
    (hfresh : AutoActionSynthesizer.actionId observation ∉ s.rollback_stack) :
    (StackInv (AutoActionSynthesizer.synthesize_and_execute s observation now).2
      ∧ (AutoActionSynthesizer.synthesize_and_execute s observation
          now).2.rollback_stack.Nodup
      ∧ ((AutoActionSynthesizer.synthesize_and_execute s observation
            now).2.rollback_stack =
              AutoActionSynthesizer.actionId observation :: s.rollback_stack
          ∨ (AutoActionSynthesizer.synthesize_and_execute s observation
              now).2.rollback_stack = s.rollback_stack))
    ∧ (StackInv (AutoActionSynthesizer.rollback_last s now2).2
      ∧ (AutoActionSynthesizer.rollback_last s now2).2.rollback_stack.Nodup
      ∧ (AutoActionSynthesizer.rollback_last s now2).2.rollback_stack =
          s.rollback_stack.tail)
    ∧ (∀ id, (AutoActionSynthesizer.rollback_action s id
        now2).2.rollback_stack = s.rollback_stack) := by
  refine ⟨?_, ?_, ?_⟩
  · by_cases hs : SandboxRunner.is_safe_to_auto_execute observation.action = true
    · by_cases hx : (SandboxRunner.test_automation observation.action).success = true
      · simp only [AutoActionSynthesizer.synthesize_and_execute, hs, hx,
          not_true_eq_false, if_false]
        refine ⟨?_, List.nodup_cons.mpr ⟨hfresh, hnd⟩, Or.inl (by trivial)⟩
        intro x hx2
        rcases List.mem_cons.mp hx2 with h1 | h1
        · subst h1
          simp [lookup_mapInsert]
        · have hne : x ≠ AutoActionSynthesizer.actionId observation := by
            intro hcon
            exact hfresh (hcon ▸ h1)
          simpa [lookup_mapInsert, hne] using hinv x h1
      · simp [AutoActionSynthesizer.synthesize_and_execute, hs, hx]
        exact ⟨hinv, hnd⟩
    · simp [AutoActionSynthesizer.synthesize_and_execute, hs]
      exact ⟨hinv, hnd⟩
  · rcases hstack : s.rollback_stack with _ | ⟨id, rest⟩
    · simp only [AutoActionSynthesizer.rollback_last, hstack]
      exact ⟨by simpa [hstack] using hinv, by simpa [hstack] using hnd, by simp⟩
    · have hnd2 : id ∉ rest ∧ rest.Nodup :=
        List.nodup_cons.mp (hstack ▸ hnd)
      have hrest : ∀ x ∈ rest,
          (s.executed_actions.lookup x).map ExecutedAction.state =
            some ActionState.Completed := by
        intro x hxr
        exact hinv x (hstack ▸ List.mem_cons_of_mem id hxr)
      cases hlook : s.executed_actions.lookup id with
      | none =>
          simp only [AutoActionSynthesizer.rollback_last, hstack, hlook]
          exact ⟨hrest, hnd2.2, by simp [hstack]⟩
      | some a =>
          by_cases hc : a.state = ActionState.Completed
          · simp only [AutoActionSynthesizer.rollback_last, hstack, hlook,
              hc, if_true]
            refine ⟨?_, hnd2.2, by simp [hstack]⟩
            intro x hxr
            have hne : x ≠ id := by
              intro hcon
              exact hnd2.1 (hcon ▸ hxr)
            simpa [lookup_mapUpdate, hne] using hrest x hxr
          · simp only [AutoActionSynthesizer.rollback_last, hstack, hlook,
              hc, if_false]
            exact ⟨hrest, hnd2.2, by simp [hstack]⟩
  · intro id
    cases hlook : s.executed_actions.lookup id with
    | none => simp [AutoActionSynthesizer.rollback_action, hlook]
    | some a =>
        by_cases hc : a.state = ActionState.Completed <;>
          simp [AutoActionSynthesizer.rollback_action, hlook, hc]

/-- Witness for C3 (amended): the empty synthesizer satisfies the
hypotheses, and one execution followed by a `rollback_last` and a
`rollback_action` on it behave as stated. -/
theorem stack_inv_preservation_witness :
    StackInv (AutoActionSynthesizer.synthesize_and_execute
        AutoActionSynthesizer.new sampleObservation 0).2
    ∧ StackInv (AutoActionSynthesizer.rollback_last AutoActionSynthesizer.new 0).2
    ∧ (AutoActionSynthesizer.rollback_action AutoActionSynthesizer.new
        "action_test_001" 0).2.rollback_stack =
          AutoActionSynthesizer.new.rollback_stack :=
  ⟨(stack_inv_preservation AutoActionSynthesizer.new sampleObservation 0 0
      (by decide) (by decide) (by decide)).1.1,
   (stack_inv_preservation AutoActionSynthesizer.new sampleObservation 0 0
      (by decide) (by decide) (by decide)).2.1.1,
   (stack_inv_preservation AutoActionSynthesizer.new sampleObservation 0 0
      (by decide) (by decide) (by decide)).2.2 "action_test_001"⟩

/-- C4: `rollback_last` on an empty stack returns the resource-exhausted
error and changes nothing (the embedding is a total function: no panic);
on a non-empty stack it pops the top id, and: transitions an existing
`Completed` record to `RolledBack` stamping the rollback time, errors
with the not-found message when the record is missing, and errors with
the state-violation message when the record is not `Completed`, touching
no record in either error case. -/
theorem rollback_last_spec (s : AutoActionSynthesizer) (now : Int) :
    (s.rollback_stack = [] →
      (AutoActionSynthesizer.rollback_last s now).1 =
          Except.error "No actions to rollback"
        ∧ (AutoActionSynthesizer.rollback_last s now).2 = s)
    ∧ (∀ id rest, s.rollback_stack = id :: rest →
        (AutoActionSynthesizer.rollback_last s now).2.rollback_stack = rest
        ∧ (∀ a, s.executed_actions.lookup id = some a →
            a.state = ActionState.Completed →
              (AutoActionSynthesizer.rollback_last s now).1 = Except.ok ()
              ∧ (AutoActionSynthesizer.rollback_last
                  s now).2.executed_actions.lookup id =
                    some { a with
                      state := ActionState.RolledBack
                      rolled_back_at := some now })
        ∧ (∀ a, s.executed_actions.lookup id = some a →
            a.state ≠ ActionState.Completed →
              (AutoActionSynthesizer.rollback_last s now).1 =
                  Except.error "Action not in completed state"
              ∧ (AutoActionSynthesizer.rollback_last s now).2.executed_actions =
                  s.executed_actions)
        ∧ (s.executed_actions.lookup id = none →
            (AutoActionSynthesizer.rollback_last s now).1 =
                Except.error "Action not found"
              ∧ (AutoActionSynthesizer.rollback_last s now).2.executed_actions =
                  s.executed_actions)) := by
  constructor
  · intro h
    simp [AutoActionSynthesizer.rollback_last, h]
  · intro id rest hstack
    refine ⟨?_, ?_, ?_, ?_⟩
    · cases hlook : s.executed_actions.lookup id with
      | none => simp [AutoActionSynthesizer.rollback_last, hstack, hlook]
      | some a =>
          by_cases hc : a.state = ActionState.Completed <;>
            simp [AutoActionSynthesizer.rollback_last, hstack, hlook, hc]
    · intro a hlook hc
      simp only [AutoActionSynthesizer.rollback_last, hstack, hlook, hc, if_true]
      exact ⟨by trivial, by simp [lookup_mapUpdate, hlook]⟩
    · intro a hlook hc
      simp [AutoActionSynthesizer.rollback_last, hstack, hlook, hc]
    · intro hlook
      simp [AutoActionSynthesizer.rollback_last, hstack, hlook]

/-- C10: when the id on top of the rollback stack refers to a record
that is not in state `Completed`, `rollback_last` returns the
state-violation error and still removes the id: the stack shrinks by one
while the record map is unchanged. -/
theorem rollback_last_stale_pop (s : AutoActionSynthesizer) (now : Int)
    (id : String) (rest : List String) (a : ExecutedAction)
    (hstack : s.rollback_stack = id :: rest)
    (hlook : s.executed_actions.lookup id = some a)
    (hstate : a.state ≠ ActionState.Completed) :
    (AutoActionSynthesizer.rollback_last s now).1 =
        Except.error "Action not in completed state"
    ∧ (AutoActionSynthesizer.rollback_last s now).2.rollback_stack = rest
    ∧ (AutoActionSynthesizer.rollback_last s now).2.rollback_stack.length + 1 =
        s.rollback_stack.length
    ∧ (AutoActionSynthesizer.rollback_last s now).2.executed_actions =
        s.executed_actions := by
  simp [AutoActionSynthesizer.rollback_last, hstack, hlook, hstate]

/-- Witness for C10: on `staleSynthesizer` (whose only stack entry is
already `RolledBack`), `rollback_last` errors while the stack shrinks
from one entry to none. -/
theorem rollback_last_stale_pop_witness :
    (AutoActionSynthesizer.rollback_last staleSynthesizer 5).1 =
        Except.error "Action not in completed state"
    ∧ (AutoActionSynthesizer.rollback_last staleSynthesizer 5).2.rollback_stack = []
    ∧ (AutoActionSynthesizer.rollback_last
        staleSynthesizer 5).2.rollback_stack.length + 1 =
          staleSynthesizer.rollback_stack.length
    ∧ (AutoActionSynthesizer.rollback_last staleSynthesizer 5).2.executed_actions =
        staleSynthesizer.executed_actions :=
  rollback_last_stale_pop staleSynthesizer 5 "action_test_001" [] staleRecord
    (by decide) (by decide) (by decide)

/-- Counterexample to C9 as stated: a one-event list projects to a
sequence of length 1 < 3 and the history stays unchanged, but against a
history already holding six sequences the returned pattern result is
`[WorkflowSequence]`, not empty. -/
theorem mine_patterns_short_cex :
    (PatternMiner.projectSequence singleLaunchEvent).length < 3
    ∧ (PatternMiner.mine_patterns sixSequenceMiner singleLaunchEvent).1 =
        [PatternType.WorkflowSequence]
    ∧ (PatternMiner.mine_patterns sixSequenceMiner singleLaunchEvent).2 =
        sixSequenceMiner := by
  have hseq : PatternMiner.projectSequence singleLaunchEvent = ["Teams"] := by
    decide
  refine ⟨by decide, ?_, ?_⟩
  · norm_num [PatternMiner.mine_patterns, hseq,
      PatternMiner.detect_pattern_types, sixSequenceMiner,
      List.map_replicate, List.sum_replicate]
  · simp [PatternMiner.mine_patterns, hseq]

/-- C9 (amended): when the filtered focus/launch/switch sequence has
fewer than 3 elements, `mine_patterns` leaves the sequence history and
the causal graph unchanged and returns the pattern tags of the existing
(unchanged) history; in particular the result is empty when the history
is empty (a nonempty but small history can also yield no tags). -/
theorem mine_patterns_short (m : PatternMiner) (events : List OSEvent)
    (h : (PatternMiner.projectSequence events).length < 3) :
    (PatternMiner.mine_patterns m events).2 = m
    ∧ (PatternMiner.mine_patterns m events).1 =
        PatternMiner.detect_pattern_types m
    ∧ (m.event_sequences = [] → (PatternMiner.mine_patterns m events).1 = []) := by
  have h3 : ¬ (3 ≤ (PatternMiner.projectSequence events).length) := by omega
  refine ⟨?_, ?_, ?_⟩
  · simp [PatternMiner.mine_patterns, h3]
  · simp [PatternMiner.mine_patterns, h3]
  · intro hemp
    simp [PatternMiner.mine_patterns, h3, PatternMiner.detect_pattern_types, hemp]

/-- Witness for C9 (amended): mining an empty event list over the fresh
miner changes nothing and returns no pattern tags. -/
theorem mine_patterns_short_witness :
    (PatternMiner.mine_patterns PatternMiner.new []).2 = PatternMiner.new
    ∧ (PatternMiner.mine_patterns PatternMiner.new []).1 =
        PatternMiner.detect_pattern_types PatternMiner.new
    ∧ (PatternMiner.new.event_sequences = [] →
        (PatternMiner.mine_patterns PatternMiner.new []).1 = []) :=
  mine_patterns_short PatternMiner.new [] (by decide)

/-- C8: `rank_actions` pairs every observation with the composite score
`(0.4·score + 0.6·(expected_time_saved/100)) · confidenceMultiplier ·
riskMultiplier`, where `score` clamps `Σ weight[k]·metric[k] / 100` to
`[0,1]` with missing metric and expected-outcome keys defaulting to 0,
and returns the pairs sorted descending by score — a permutation of the
scored input in which ties keep their input order (stability as a
sublist property). -/
theorem rank_actions_spec (weights : List (String × ℚ))
    (observations : List Observation) :
    ((RecommendationRanker.rank_actions weights observations).Perm
        (observations.map
          (fun o => (o, RecommendationRanker.compositeScore weights o))))
    ∧ (∀ p ∈ RecommendationRanker.rank_actions weights observations,
        p.2 = RecommendationRanker.compositeScore weights p.1)
    ∧ List.Pairwise (fun a b : Observation × ℚ => b.2 ≤ a.2)
        (RecommendationRanker.rank_actions weights observations)
    ∧ (∀ x y : Observation × ℚ, x.2 = y.2 →
        List.Sublist [x, y]
          (observations.map
            (fun o => (o, RecommendationRanker.compositeScore weights o))) →
        List.Sublist [x, y] (RecommendationRanker.rank_actions weights observations))
    ∧ (∀ o : Observation, RecommendationRanker.compositeScore weights o =
        (0.4 * PatternDetector.score_confidence weights o
          + 0.6 * (((o.expected_outcome.lookup "time_saved_min").getD 0) / 100))
          * confidenceMultiplier o.action.confidence
          * riskMultiplier o.action.risk)
    ∧ (∀ o : Observation, PatternDetector.score_confidence weights o =
        max (min (((weights.map (fun kw => metricOf o kw.1 * kw.2)).sum) / 100)
          1) 0) := by
  have htrans : ∀ a b c : Observation × ℚ,
      (fun a b : Observation × ℚ => decide (b.2 ≤ a.2)) a b = true →
      (fun a b : Observation × ℚ => decide (b.2 ≤ a.2)) b c = true →
      (fun a b : Observation × ℚ => decide (b.2 ≤ a.2)) a c = true := by
    intro a b c hab hbc
    simp only [decide_eq_true_eq] at hab hbc ⊢
    exact le_trans hbc hab
  have htotal : ∀ a b : Observation × ℚ,
      ((fun a b : Observation × ℚ => decide (b.2 ≤ a.2)) a b ||
        (fun a b : Observation × ℚ => decide (b.2 ≤ a.2)) b a) = true := by
    intro a b
    simp only [Bool.or_eq_true, decide_eq_true_eq]
    exact le_total b.2 a.2
  refine ⟨?_, ?_, ?_, ?_, ?_, ?_⟩
  · exact List.mergeSort_perm _ _
  · intro p hp
    have hmem : p ∈ observations.map
        (fun o => (o, RecommendationRanker.compositeScore weights o)) :=
      (List.mergeSort_perm _ _).mem_iff.mp hp
    rcases List.mem_map.mp hmem with ⟨o, _, rfl⟩
    rfl
  · have hs := List.sorted_mergeSort htrans htotal
      (observations.map (fun o => (o, RecommendationRanker.compositeScore weights o)))
    refine List.Pairwise.imp ?_ hs
    intro a b h
    simpa using h
  · intro x y hxy hsub
    unfold RecommendationRanker.rank_actions
    refine List.sublist_mergeSort htrans htotal ?_ hsub
    refine List.Pairwise.cons ?_ (List.pairwise_singleton _ _)
    intro b hb
    rcases List.mem_singleton.mp hb with rfl
    simp [hxy.symm.le]
  · intro o
    unfold RecommendationRanker.compositeScore
    cases hc : o.action.confidence <;> cases hr : o.action.risk <;>
      · simp only [hc, hr, confidenceMultiplier, riskMultiplier]
        ring
  · intro o
    unfold PatternDetector.score_confidence
    rw [score_fold_eq]
    simp

end Athenos
